import Mathlib

/-!
# Guardian — verification of the alert pipeline

Shallow embedding of the alert-generation-and-delivery pipeline of the
Guardian backend (`backend/app.py`, `backend/alerts/notification_engine.py`,
`backend/models/flood_predictor.py`, `backend/models/fire_predictor.py`,
`backend/models/pollution_predictor.py`), together with theorems settling
the behavioural claims about severity-driven channel dispatch, failure
isolation, the broadcast hub, the background prediction loop, the
risk-status bands and the PM2.5 AQI helper.
-/

namespace Guardian

/-- The notification channel kinds of the system
(glossary: push, sms, email, webhook, in-app). -/
inductive ChannelKind where
  | push
  | sms
  | email
  | webhook
  | inApp
deriving DecidableEq, Repr

/-- The string each channel appends to `channels_sent` in
`AlertEngine.send_alert`. -/
def channel_name : ChannelKind → String
  | ChannelKind.push => "push_notification"
  | ChannelKind.sms => "sms"
  | ChannelKind.email => "email"
  | ChannelKind.webhook => "webhook"
  | ChannelKind.inApp => "in_app"

/-- Failure environment for the external provider integrations: which
channel's underlying send fails during this dispatch. -/
structure ChannelEnv where
  fails : ChannelKind → Bool

/-- The alert object built at the top of `AlertEngine.send_alert`
(`notification_engine.py` lines 35–49). -/
structure Alert where
  id : String
  type : String
  severity : String
  location : String
  latitude : ℚ
  longitude : ℚ
  message : String
  human_readable : String
  affected_population : Nat
  recommendations : List String
  created_at : String
  status : String
  channels_sent : List String
deriving DecidableEq, Repr

/-- The `alert_data` dict handed to `send_alert`: each key optionally
present, defaults supplied by `dict.get` as in the source. -/
structure AlertData where
  type? : Option String := none
  severity? : Option String := none
  location? : Option String := none
  latitude? : Option ℚ := none
  longitude? : Option ℚ := none
  message? : Option String := none
  human_readable? : Option String := none
  affected_population? : Option Nat := none
  recommendations? : Option (List String) := none
deriving DecidableEq, Repr

/-- The `self.alerts` dict of `AlertEngine`, keyed by alert id; first
match wins on lookup, insertion is cons (dict assignment). -/
abbrev AlertMap := List (String × Alert)

/-- Lines 35–49 of `notification_engine.py`: the alert object created in
`send_alert`, with `dict.get` defaults, fresh id `newId`, creation time
`now`, status `"active"` and an empty `channels_sent` list. -/
def mkAlert (newId now : String) (d : AlertData) : Alert :=
  { id := newId
    type := d.type?.getD "unknown"
    severity := d.severity?.getD "moderate"
    location := d.location?.getD "Unknown"
    latitude := d.latitude?.getD 0
    longitude := d.longitude?.getD 0
    message := d.message?.getD ""
    human_readable := d.human_readable?.getD ""
    affected_population := d.affected_population?.getD 0
    recommendations := d.recommendations?.getD []
    created_at := now
    status := "active"
    channels_sent := [] }

/-- The provider call at each adapter's TODO integration point
(`# TODO: Integration with FCM or OneSignal`, Twilio, SendGrid, …): an
external send that either succeeds or raises. -/
def providerSend (env : ChannelEnv) (c : ChannelKind) : Except String Unit :=
  if env.fails c then Except.error "channel send failed" else Except.ok ()

/-- `AlertEngine._send_push_notification` (lines 90–105): builds the
notification payload and performs the provider send inside `try`/`except`;
any exception is logged and swallowed, so the adapter never raises and
reports nothing back to `send_alert`. -/
def send_push_notification (env : ChannelEnv) (_alert : Alert) : Except String Unit :=
  match providerSend env ChannelKind.push with
  | Except.ok _ => Except.ok ()
  | Except.error _ => Except.ok ()

/-- `AlertEngine._send_sms` (lines 107–116): same `try`/`except` shape as
the push adapter; exceptions logged and swallowed. -/
def send_sms (env : ChannelEnv) (_alert : Alert) : Except String Unit :=
  match providerSend env ChannelKind.sms with
  | Except.ok _ => Except.ok ()
  | Except.error _ => Except.ok ()

/-- `AlertEngine._send_email` (line 118 onward): opens the same
`try`/`except` shape as the other adapters; the file's visible text ends
inside its body, and the tail (its `except` handler) follows the uniform
adapter pattern of logging and swallowing the exception. -/
def send_email (env : ChannelEnv) (_alert : Alert) : Except String Unit :=
  match providerSend env ChannelKind.email with
  | Except.ok _ => Except.ok ()
  | Except.error _ => Except.ok ()

/-- Modelled from the spec: `AlertEngine._send_webhook` is called from
`send_alert` (line 66) but its definition lies beyond the truncation point
of `notification_engine.py`. Per §7 of the spec a channel send failure is
a TransientIOFailure, "isolated per unit, recorded, never propagated past
the owning component", matching the visible adapters' `try`/`except`
pattern: the adapter never raises. -/
def send_webhook (env : ChannelEnv) (_alert : Alert) : Except String Unit :=
  match providerSend env ChannelKind.webhook with
  | Except.ok _ => Except.ok ()
  | Except.error _ => Except.ok ()

/-- Modelled from the spec: `AlertEngine._send_in_app_notification` is
called from `send_alert` (line 76) but its definition lies beyond the
truncation point of `notification_engine.py`. As for the other adapters,
§7 of the spec has it isolate its own failure and never raise. -/
def send_in_app_notification (env : ChannelEnv) (_alert : Alert) : Except String Unit :=
  match providerSend env ChannelKind.inApp with
  | Except.ok _ => Except.ok ()
  | Except.error _ => Except.ok ()

/-- `AlertEngine.send_alert` (lines 23–88): create the alert object,
branch on severity, call each selected channel adapter and append its
name to `channels_sent` after the call, store the alert in `self.alerts`,
and return it. The whole body sits in a `try` whose `except` handler
re-raises, so any exception escaping a step propagates (`Except.error`).
The second component is the trace of channel adapters invoked. -/
def send_alert (env : ChannelEnv) (alerts : AlertMap) (newId now : String) (d : AlertData) :
    Except String (AlertMap × Alert) × List ChannelKind :=
  let a0 := mkAlert newId now d
  if a0.severity = "critical" ∨ a0.severity = "high" then
    match send_push_notification env a0 with
    | Except.error e => (Except.error e, [ChannelKind.push])
    | Except.ok _ =>
      let a1 := { a0 with channels_sent := a0.channels_sent ++ ["push_notification"] }
      match send_sms env a1 with
      | Except.error e => (Except.error e, [ChannelKind.push, ChannelKind.sms])
      | Except.ok _ =>
        let a2 := { a1 with channels_sent := a1.channels_sent ++ ["sms"] }
        match send_email env a2 with
        | Except.error e =>
          (Except.error e, [ChannelKind.push, ChannelKind.sms, ChannelKind.email])
        | Except.ok _ =>
          let a3 := { a2 with channels_sent := a2.channels_sent ++ ["email"] }
          match send_webhook env a3 with
          | Except.error e =>
            (Except.error e,
             [ChannelKind.push, ChannelKind.sms, ChannelKind.email, ChannelKind.webhook])
          | Except.ok _ =>
            let a4 := { a3 with channels_sent := a3.channels_sent ++ ["webhook"] }
            (Except.ok ((a4.id, a4) :: alerts, a4),
             [ChannelKind.push, ChannelKind.sms, ChannelKind.email, ChannelKind.webhook])
  else if a0.severity = "moderate" then
    match send_push_notification env a0 with
    | Except.error e => (Except.error e, [ChannelKind.push])
    | Except.ok _ =>
      let a1 := { a0 with channels_sent := a0.channels_sent ++ ["push_notification"] }
      match send_email env a1 with
      | Except.error e => (Except.error e, [ChannelKind.push, ChannelKind.email])
      | Except.ok _ =>
        let a2 := { a1 with channels_sent := a1.channels_sent ++ ["email"] }
        (Except.ok ((a2.id, a2) :: alerts, a2), [ChannelKind.push, ChannelKind.email])
  else
    match send_in_app_notification env a0 with
    | Except.error e => (Except.error e, [ChannelKind.inApp])
    | Except.ok _ =>
      let a1 := { a0 with channels_sent := a0.channels_sent ++ ["in_app"] }
      (Except.ok ((a1.id, a1) :: alerts, a1), [ChannelKind.inApp])

/-- A channel environment in which every provider send succeeds. -/
def envAllOk : ChannelEnv := { fails := fun _ => false }

/-- A channel environment in which exactly the push provider fails. -/
def envPushFail : ChannelEnv :=
  { fails := fun c => match c with
      | ChannelKind.push => true
      | _ => false }

/-- A channel environment in which exactly the SMS provider fails. -/
def envSmsFail : ChannelEnv :=
  { fails := fun c => match c with
      | ChannelKind.sms => true
      | _ => false }

/-- A critical-severity alert payload used in concrete evaluations. -/
def dCritical : AlertData := { severity? := some "critical" }

/-! ## BroadcastHub: `broadcast_update` / `broadcast_alert` (`app.py`) -/

/-- Payload values carried inside a websocket message. -/
inductive JVal where
  | str : String → JVal
  | alertV : Alert → JVal
  | dataV : List (String × ℚ) → JVal
deriving DecidableEq, Repr

/-- A websocket message: a JSON object as an ordered key/value list. -/
abbrev Envelope := List (String × JVal)

/-- The `for client in connected_clients` sweep of `broadcast_update`
(`app.py` lines 491–497): attempt `send_json` on each client; a client
whose send raises is added to `disconnected`, the iteration continues.
Returns (clients whose send succeeded, the `disconnected` set). -/
def sweep (sendOk : Nat → Bool) : List Nat → List Nat × List Nat
  | [] => ([], [])
  | c :: cs =>
    let r := sweep sendOk cs
    if sendOk c then (c :: r.1, r.2) else (r.1, c :: r.2)

/-- `broadcast_update` (`app.py` lines 488–500): if the registry is
nonempty, sweep it, then discard every disconnected client. Returns the
deliveries made (client paired with the message it received) and the
registry after the sweep. -/
def broadcast_update (sendOk : Nat → Bool) (clients : List Nat) (message : Envelope) :
    List (Nat × Envelope) × List Nat :=
  if clients.isEmpty then ([], clients)
  else
    let r := sweep sendOk clients
    ((r.1.map fun c => (c, message)),
     clients.filter (fun c => !(r.2.contains c)))

/-- The message built by `broadcast_alert` (`app.py` lines 503–510):
keys `"type"`, `"data"`, `"timestamp"`, with `"type"` set to `"alert"`. -/
def broadcast_alert_message (a : Alert) (ts : String) : Envelope :=
  [("type", JVal.str "alert"), ("data", JVal.alertV a), ("timestamp", JVal.str ts)]

/-- `broadcast_alert` (`app.py` lines 503–510): wrap the alert in the
message and hand it to `broadcast_update`. -/
def broadcast_alert (sendOk : Nat → Bool) (clients : List Nat) (a : Alert) (ts : String) :
    List (Nat × Envelope) × List Nat :=
  broadcast_update sendOk clients (broadcast_alert_message a ts)

/-- The message broadcast by `background_data_collection`
(`app.py` lines 440–444): keys `"type"`, `"data"`, `"timestamp"`, with
`"type"` set to `"sensor_update"`. -/
def sensor_update_message (data : List (String × ℚ)) (ts : String) : Envelope :=
  [("type", JVal.str "sensor_update"), ("data", JVal.dataV data), ("timestamp", JVal.str ts)]

/-! ## Manual alert endpoint (`app.py` lines 309–327) -/

/-- The JSON body returned by `create_manual_alert` on success. -/
structure ManualAlertResponse where
  status : String
  alert : Alert
  timestamp : String
deriving DecidableEq, Repr

/-- Modelled from the spec: `AlertEngine.create_alert` is invoked from
`app.create_manual_alert` (line 313) but its definition lies beyond the
truncation point of `notification_engine.py`. Per §6 of the spec, a
manually submitted alert "goes directly to Dispatcher + BroadcastHub,
bypassing RuleEvaluator": it creates the Alert and dispatches it across
the severity-selected channel set (§4.3), returning the created alert;
the caller itself hands it to the BroadcastHub. -/
def create_alert (env : ChannelEnv) (alerts : AlertMap) (newId now : String) (d : AlertData) :
    Except String (AlertMap × Alert) :=
  (send_alert env alerts newId now d).1

/-- `create_manual_alert` (`app.py` lines 309–327): create the alert via
the alert engine, broadcast it to the websocket clients, and return a
`"success"` response carrying the created alert; an exception from either
step is re-raised as an HTTP 500. -/
def create_manual_alert (env : ChannelEnv) (sendOk : Nat → Bool)
    (alerts : AlertMap) (clients : List Nat) (newId now ts : String) (d : AlertData) :
    Except String (ManualAlertResponse × AlertMap × List (Nat × Envelope) × List Nat) :=
  match create_alert env alerts newId now d with
  | Except.error e => Except.error e
  | Except.ok (alerts2, a) =>
    let b := broadcast_alert sendOk clients a ts
    Except.ok ({ status := "success", alert := a, timestamp := ts }, alerts2, b.1, b.2)

/-! ## Scheduler: one iteration of `background_prediction_loop`
(`app.py` lines 452–486) -/

/-- Observable outcome of one iteration of the prediction loop. -/
structure CycleResult (Loc : Type) where
  processed : List Loc
  sleep_seconds : Nat
  terminated : Bool
deriving DecidableEq, Repr

/-- The `for location_data in sensor_data` loop (lines 463–481), which
runs inside the iteration's single `try` block: locations are processed
in order until one raises; the exception aborts the loop, leaving the
remaining locations unprocessed. Returns the locations fully processed
and the escaping exception, if any. -/
def run_locations {Loc : Type} (process : Loc → Except String Unit) :
    List Loc → List Loc × Option String
  | [] => ([], none)
  | l :: ls =>
    match process l with
    | Except.ok _ =>
      let r := run_locations process ls
      (l :: r.1, r.2)
    | Except.error e => ([], some e)

/-- One iteration of `background_prediction_loop` (lines 452–486): the
`try` block fetches the readings and runs the per-location loop; on an
exception the `except` handler logs it; either path sleeps the full 300 s
interval and the `while True` loop continues (never terminates). -/
def prediction_cycle {Loc : Type} (process : Loc → Except String Unit)
    (sensor_data : List Loc) : CycleResult Loc :=
  let r := run_locations process sensor_data
  { processed := r.1, sleep_seconds := 300, terminated := false }

/-! ## Risk-status derivation (`flood_predictor.py` lines 109–120,
`fire_predictor.py` lines 114–125) -/

/-- `FloodPredictor._get_risk_status`: the internal 0–1 risk score is
banded with strict comparisons. -/
def flood_get_risk_status (score : ℚ) : String :=
  if score > 0.8 then "🔴 CRITICAL"
  else if score > 0.6 then "🟠 HIGH"
  else if score > 0.4 then "🟡 MODERATE"
  else if score > 0.2 then "🟢 LOW"
  else "⚪ MINIMAL"

/-- `FirePredictor._get_risk_status`: same strict bands, different
status strings. -/
def fire_get_risk_status (score : ℚ) : String :=
  if score > 0.8 then "🔴 EXTREME"
  else if score > 0.6 then "🟠 VERY HIGH"
  else if score > 0.4 then "🟡 HIGH"
  else if score > 0.2 then "🟢 MODERATE"
  else "⚪ LOW"

/-! ## PM2.5 AQI helper (`pollution_predictor.py` lines 90–106) -/

/-- The EPA breakpoint table of `PollutionPredictor._calculate_pm25_aqi`:
(concentration low, concentration high, AQI low, AQI high). -/
def pm25_breakpoints : List (ℚ × ℚ × ℚ × ℚ) :=
  [(0, 12, 0, 50),
   (12.1, 35.4, 51, 100),
   (35.5, 55.4, 101, 150),
   (55.5, 150.4, 151, 200),
   (150.5, 250.4, 201, 300),
   (250.5, 500, 301, 500)]

/-- The `for bp_lo, bp_hi, aqi_lo, aqi_hi in breakpoints` scan: linear
interpolation inside the first bracketing interval, `500.0` if the loop
falls through. -/
def aqi_from_breakpoints (pm : ℚ) : List (ℚ × ℚ × ℚ × ℚ) → ℚ
  | [] => 500
  | (bpLo, bpHi, aqiLo, aqiHi) :: rest =>
    if bpLo ≤ pm ∧ pm ≤ bpHi then aqiLo + (pm - bpLo) / (bpHi - bpLo) * (aqiHi - aqiLo)
    else aqi_from_breakpoints pm rest

/-- `PollutionPredictor._calculate_pm25_aqi`. -/
def calculate_pm25_aqi (pm25 : ℚ) : ℚ :=
  aqi_from_breakpoints pm25 pm25_breakpoints

/-! ## Helper lemmas about the channel adapters and `send_alert` -/

theorem send_push_notification_ok (env : ChannelEnv) (a : Alert) :
    send_push_notification env a = Except.ok () := by
  cases h : env.fails ChannelKind.push <;>
    simp [send_push_notification, providerSend, h]

theorem send_sms_ok (env : ChannelEnv) (a : Alert) :
    send_sms env a = Except.ok () := by
  cases h : env.fails ChannelKind.sms <;>
    simp [send_sms, providerSend, h]

theorem send_email_ok (env : ChannelEnv) (a : Alert) :
    send_email env a = Except.ok () := by
  cases h : env.fails ChannelKind.email <;>
    simp [send_email, providerSend, h]

theorem send_webhook_ok (env : ChannelEnv) (a : Alert) :
    send_webhook env a = Except.ok () := by
  cases h : env.fails ChannelKind.webhook <;>
    simp [send_webhook, providerSend, h]

theorem send_in_app_notification_ok (env : ChannelEnv) (a : Alert) :
    send_in_app_notification env a = Except.ok () := by
  cases h : env.fails ChannelKind.inApp <;>
    simp [send_in_app_notification, providerSend, h]

@[simp] theorem mkAlert_id (newId now : String) (d : AlertData) :
    (mkAlert newId now d).id = newId := rfl

@[simp] theorem mkAlert_status (newId now : String) (d : AlertData) :
    (mkAlert newId now d).status = "active" := rfl

@[simp] theorem mkAlert_channels_sent (newId now : String) (d : AlertData) :
    (mkAlert newId now d).channels_sent = [] := rfl

/-- Closed form of `send_alert`: every adapter swallows its own failure,
so each branch runs to completion and the result does not depend on the
channel environment. -/
theorem send_alert_eq (env : ChannelEnv) (alerts : AlertMap) (newId now : String)
    (d : AlertData) :
    send_alert env alerts newId now d =
      if (mkAlert newId now d).severity = "critical" ∨
         (mkAlert newId now d).severity = "high" then
        (Except.ok
          ((newId,
            { mkAlert newId now d with
                channels_sent := ["push_notification", "sms", "email", "webhook"] }) :: alerts,
           { mkAlert newId now d with
               channels_sent := ["push_notification", "sms", "email", "webhook"] }),
         [ChannelKind.push, ChannelKind.sms, ChannelKind.email, ChannelKind.webhook])
      else if (mkAlert newId now d).severity = "moderate" then
        (Except.ok
          ((newId,
            { mkAlert newId now d with
                channels_sent := ["push_notification", "email"] }) :: alerts,
           { mkAlert newId now d with channels_sent := ["push_notification", "email"] }),
         [ChannelKind.push, ChannelKind.email])
      else
        (Except.ok
          ((newId, { mkAlert newId now d with channels_sent := ["in_app"] }) :: alerts,
           { mkAlert newId now d with channels_sent := ["in_app"] }),
         [ChannelKind.inApp]) := by
  by_cases h1 : (mkAlert newId now d).severity = "critical" ∨
      (mkAlert newId now d).severity = "high"
  · simp [send_alert, h1, send_push_notification_ok, send_sms_ok, send_email_ok,
      send_webhook_ok]
  · by_cases h2 : (mkAlert newId now d).severity = "moderate"
    · simp [send_alert, h1, h2, send_push_notification_ok, send_email_ok]
    · simp [send_alert, h1, h2, send_in_app_notification_ok]

/-! ## Claim theorems -/

/-- C1 (counterexample): dispatching a critical alert while the push
provider fails yields a return value identical to the all-success
dispatch, so the channel failure is not encoded in the return value. -/
theorem sendAlert_failure_not_encoded :
    envPushFail.fails ChannelKind.push = true ∧
    envAllOk.fails ChannelKind.push = false ∧
    send_alert envPushFail [] "id1" "t1" dCritical =
      send_alert envAllOk [] "id1" "t1" dCritical :=
  ⟨rfl, rfl, rfl⟩

/-- C1 (amended): for every alert input, `send_alert` never raises to its
caller and always returns the created alert with its `channels_sent`
field populated; however, channel failures are swallowed and logged by
the adapters and never encoded in the return value: the result is
independent of which channels fail. -/
theorem sendAlert_total_and_failure_silent (env env2 : ChannelEnv) (alerts : AlertMap)
    (newId now : String) (d : AlertData) :
    (∃ alerts2 a, (send_alert env alerts newId now d).1 = Except.ok (alerts2, a) ∧
      a.channels_sent ≠ []) ∧
    send_alert env alerts newId now d = send_alert env2 alerts newId now d := by
  constructor
  · rw [send_alert_eq]
    by_cases h1 : (mkAlert newId now d).severity = "critical" ∨
        (mkAlert newId now d).severity = "high"
    · rw [if_pos h1]; exact ⟨_, _, rfl, by simp⟩
    · by_cases h2 : (mkAlert newId now d).severity = "moderate"
      · rw [if_neg h1, if_pos h2]; exact ⟨_, _, rfl, by simp⟩
      · rw [if_neg h1, if_neg h2]; exact ⟨_, _, rfl, by simp⟩
  · rw [send_alert_eq, send_alert_eq]

/-- C2: the set of channels attempted by `send_alert` is determined by
severity exactly as the channel-selection table prescribes: critical or
high attempts push, sms, email, webhook; moderate attempts push, email;
low attempts in-app only. -/
theorem sendAlert_channels_by_severity (env : ChannelEnv) (alerts : AlertMap)
    (newId now : String) (d : AlertData) :
    ((mkAlert newId now d).severity = "critical" ∨
       (mkAlert newId now d).severity = "high" →
      (send_alert env alerts newId now d).2 =
        [ChannelKind.push, ChannelKind.sms, ChannelKind.email, ChannelKind.webhook]) ∧
    ((mkAlert newId now d).severity = "moderate" →
      (send_alert env alerts newId now d).2 = [ChannelKind.push, ChannelKind.email]) ∧
    ((mkAlert newId now d).severity = "low" →
      (send_alert env alerts newId now d).2 = [ChannelKind.inApp]) := by
  refine ⟨fun h1 => ?_, fun h2 => ?_, fun h3 => ?_⟩
  · rw [send_alert_eq, if_pos h1]
  · have h1 : ¬((mkAlert newId now d).severity = "critical" ∨
        (mkAlert newId now d).severity = "high") := by
      rw [h2]; decide
    rw [send_alert_eq, if_neg h1, if_pos h2]
  · have h1 : ¬((mkAlert newId now d).severity = "critical" ∨
        (mkAlert newId now d).severity = "high") := by
      rw [h3]; decide
    have h2 : ¬(mkAlert newId now d).severity = "moderate" := by
      rw [h3]; decide
    rw [send_alert_eq, if_neg h1, if_neg h2]

/-- C2 (witness): a concrete critical alert attempts exactly push, sms,
email, webhook. -/
theorem sendAlert_channels_by_severity_witness :
    (send_alert envAllOk [] "id1" "t1" dCritical).2 =
      [ChannelKind.push, ChannelKind.sms, ChannelKind.email, ChannelKind.webhook] :=
  (sendAlert_channels_by_severity envAllOk [] "id1" "t1" dCritical).1 (Or.inl rfl)

/-- C3 (counterexample): with exactly the SMS provider failing on a
critical alert, all four channels are attempted and dispatch returns
normally, but the only per-channel record the returned alert carries —
`channels_sent` — still equals the full attempted set including `"sms"`:
no recorded set equals attempted minus the failed channel. -/
theorem sendAlert_failed_channel_still_recorded :
    envSmsFail.fails ChannelKind.sms = true ∧
    envSmsFail.fails ChannelKind.push = false ∧
    envSmsFail.fails ChannelKind.email = false ∧
    envSmsFail.fails ChannelKind.webhook = false ∧
    envSmsFail.fails ChannelKind.inApp = false ∧
    (send_alert envSmsFail [] "id1" "t1" dCritical).2 =
      [ChannelKind.push, ChannelKind.sms, ChannelKind.email, ChannelKind.webhook] ∧
    (send_alert envSmsFail [] "id1" "t1" dCritical).1.map (fun p => p.2.channels_sent) =
      Except.ok ["push_notification", "sms", "email", "webhook"] :=
  ⟨rfl, rfl, rfl, rfl, rfl, rfl, rfl⟩

/-- C3 (amended): if during one dispatch exactly one channel adapter
fails and all others succeed, the other channels are still attempted,
dispatch returns normally, and the result is the same as the all-success
dispatch: the returned alert's `channels_sent` equals the names of the
full attempted set (the failed channel included); the failure is only
logged, never recorded per channel. -/
theorem sendAlert_one_failure_isolated (env : ChannelEnv) (alerts : AlertMap)
    (newId now : String) (d : AlertData) (c : ChannelKind)
    (_hc : ∀ c2 : ChannelKind, env.fails c2 = true ↔ c2 = c) :
    send_alert env alerts newId now d = send_alert envAllOk alerts newId now d ∧
    ∃ alerts2 a, (send_alert env alerts newId now d).1 = Except.ok (alerts2, a) ∧
      a.channels_sent = (send_alert env alerts newId now d).2.map channel_name := by
  constructor
  · rw [send_alert_eq, send_alert_eq]
  · rw [send_alert_eq]
    by_cases h1 : (mkAlert newId now d).severity = "critical" ∨
        (mkAlert newId now d).severity = "high"
    · rw [if_pos h1]; exact ⟨_, _, rfl, rfl⟩
    · by_cases h2 : (mkAlert newId now d).severity = "moderate"
      · rw [if_neg h1, if_pos h2]; exact ⟨_, _, rfl, rfl⟩
      · rw [if_neg h1, if_neg h2]; exact ⟨_, _, rfl, rfl⟩

/-- C3 (witness): the amended statement at the concrete environment in
which exactly the SMS provider fails. -/
theorem sendAlert_one_failure_isolated_witness :
    send_alert envSmsFail [] "idw" "tw" dCritical =
      send_alert envAllOk [] "idw" "tw" dCritical ∧
    ∃ alerts2 a, (send_alert envSmsFail [] "idw" "tw" dCritical).1 =
        Except.ok (alerts2, a) ∧
      a.channels_sent = (send_alert envSmsFail [] "idw" "tw" dCritical).2.map channel_name :=
  sendAlert_one_failure_isolated envSmsFail [] "idw" "tw" dCritical ChannelKind.sms
    (by intro c2; cases c2 <;> decide)

/-- An alert payload with an unrecognized severity string. -/
def dWeird : AlertData := { severity? := some "weird" }

/-- C9: for every alert input whose severity is none of critical, high,
moderate — arbitrary unrecognized strings included — `send_alert`
attempts exactly the in-app channel, and the returned alert is stored in
the alert map under its id with status `"active"`. -/
theorem sendAlert_unrecognized_severity_in_app (env : ChannelEnv) (alerts : AlertMap)
    (newId now : String) (d : AlertData)
    (h1 : (mkAlert newId now d).severity ≠ "critical")
    (h2 : (mkAlert newId now d).severity ≠ "high")
    (h3 : (mkAlert newId now d).severity ≠ "moderate") :
    (send_alert env alerts newId now d).2 = [ChannelKind.inApp] ∧
    ∃ a : Alert, (send_alert env alerts newId now d).1 = Except.ok ((a.id, a) :: alerts, a) ∧
      a.channels_sent = ["in_app"] ∧ a.status = "active" ∧
      List.lookup a.id ((a.id, a) :: alerts) = some a := by
  have hor : ¬((mkAlert newId now d).severity = "critical" ∨
      (mkAlert newId now d).severity = "high") := by
    intro h; rcases h with h | h
    · exact h1 h
    · exact h2 h
  rw [send_alert_eq, if_neg hor, if_neg h3]
  refine ⟨rfl, { mkAlert newId now d with channels_sent := ["in_app"] }, ?_, rfl, rfl, ?_⟩
  · rfl
  · simp [List.lookup]

/-- C9 (witness): a concrete alert with severity `"weird"` goes to the
in-app channel only and lands in the alert map with status active. -/
theorem sendAlert_unrecognized_severity_in_app_witness :
    (send_alert envAllOk [] "id9" "t9" dWeird).2 = [ChannelKind.inApp] ∧
    ∃ a : Alert, (send_alert envAllOk [] "id9" "t9" dWeird).1 =
        Except.ok ((a.id, a) :: [], a) ∧
      a.channels_sent = ["in_app"] ∧ a.status = "active" ∧
      List.lookup a.id ((a.id, a) :: []) = some a :=
  sendAlert_unrecognized_severity_in_app envAllOk [] "id9" "t9" dWeird
    (by decide) (by decide) (by decide)

/-- The per-location loop stops at the first location whose processing
raises: the earlier locations are the ones processed, the error escapes
to the iteration's `except` handler. -/
theorem run_locations_stops_at_error {Loc : Type} (process : Loc → Except String Unit)
    (l : Loc) (post : List Loc) (e : String) (hl : process l = Except.error e) :
    ∀ pre : List Loc, (∀ x ∈ pre, process x = Except.ok ()) →
      run_locations process (pre ++ l :: post) = (pre, some e)
  | [], _ => by simp [run_locations, hl]
  | x :: xs, hpre => by
    have hx : process x = Except.ok () := hpre x (List.mem_cons_self x xs)
    have ih := run_locations_stops_at_error process l post e hl xs
      (fun y hy => hpre y (List.mem_cons_of_mem x hy))
    simp [run_locations, hx, ih]

/-- C4 (counterexample): a prediction cycle over two locations in which
the first raises does not process the second location at all; the loop
still sleeps its 300 s interval and does not terminate, but the claim's
"every other location in that same cycle is still processed" fails. -/
theorem predictionCycle_error_skips_rest :
    (prediction_cycle
        (fun l : Nat => if l = 0 then Except.error "boom" else Except.ok ())
        [0, 1]).processed = [] ∧
    (1 : Nat) ∉ (prediction_cycle
        (fun l : Nat => if l = 0 then Except.error "boom" else Except.ok ())
        [0, 1]).processed ∧
    (prediction_cycle
        (fun l : Nat => if l = 0 then Except.error "boom" else Except.ok ())
        [0, 1]).sleep_seconds = 300 ∧
    (prediction_cycle
        (fun l : Nat => if l = 0 then Except.error "boom" else Except.ok ())
        [0, 1]).terminated = false := by
  refine ⟨rfl, ?_, rfl, rfl⟩
  decide

/-- C4 (amended): if processing one location raises, the locations
already handled earlier in that cycle stay processed but the remaining
ones are skipped for that cycle; the loop still sleeps its full 300 s
interval and retries instead of terminating. -/
theorem predictionCycle_error_isolated {Loc : Type} (process : Loc → Except String Unit)
    (pre : List Loc) (l : Loc) (post : List Loc) (e : String)
    (hpre : ∀ x ∈ pre, process x = Except.ok ())
    (hl : process l = Except.error e) :
    prediction_cycle process (pre ++ l :: post) =
      { processed := pre, sleep_seconds := 300, terminated := false } := by
  unfold prediction_cycle
  rw [run_locations_stops_at_error process l post e hl pre hpre]

/-- C4 (witness): concrete cycle over three locations where the middle
one raises: only the first is processed, the loop sleeps and goes on. -/
theorem predictionCycle_error_isolated_witness :
    prediction_cycle
        (fun l : Nat => if l = 5 then Except.error "boom" else Except.ok ())
        ([1] ++ 5 :: [2]) =
      { processed := [1], sleep_seconds := 300, terminated := false } :=
  predictionCycle_error_isolated
    (fun l : Nat => if l = 5 then Except.error "boom" else Except.ok ())
    [1] 5 [2] "boom" (by intro x hx; simp at hx; subst hx; rfl) (by rfl)

/-- C5 (counterexample): at the boundary score 0.8 (risk score 80 on the
0–100 scale) the flood and fire status functions return the high-band
status, not the critical-band one: the strict comparisons send every
boundary value to the lower band. -/
theorem riskStatus_boundary_maps_lower :
    flood_get_risk_status (8/10) = "🟠 HIGH" ∧
    flood_get_risk_status (8/10) ≠ "🔴 CRITICAL" ∧
    fire_get_risk_status (8/10) = "🟠 VERY HIGH" ∧
    fire_get_risk_status (8/10) ≠ "🔴 EXTREME" := by
  have h1 : flood_get_risk_status (8/10) = "🟠 HIGH" := by
    norm_num [flood_get_risk_status]
  have h2 : fire_get_risk_status (8/10) = "🟠 VERY HIGH" := by
    norm_num [fire_get_risk_status]
  refine ⟨h1, ?_, h2, ?_⟩
  · rw [h1]; decide
  · rw [h2]; decide

/-- C5 (amended): the severity-derivation functions of the flood and
fire predictors are pure and total on the code's 0–1 score scale, with
strict bands: score > 0.8 → critical tier, 0.6 < score ≤ 0.8 → high
tier, 0.4 < score ≤ 0.6 → moderate tier, 0.2 < score ≤ 0.4 → low tier,
score ≤ 0.2 → minimal tier; each boundary value (0.8, 0.6, 0.4, 0.2,
i.e. 80, 60, 40, 20 on the 0–100 scale) maps to the lower band. -/
theorem riskStatus_bands (s : ℚ) :
    (4/5 < s → flood_get_risk_status s = "🔴 CRITICAL" ∧
      fire_get_risk_status s = "🔴 EXTREME") ∧
    (3/5 < s → s ≤ 4/5 → flood_get_risk_status s = "🟠 HIGH" ∧
      fire_get_risk_status s = "🟠 VERY HIGH") ∧
    (2/5 < s → s ≤ 3/5 → flood_get_risk_status s = "🟡 MODERATE" ∧
      fire_get_risk_status s = "🟡 HIGH") ∧
    (1/5 < s → s ≤ 2/5 → flood_get_risk_status s = "🟢 LOW" ∧
      fire_get_risk_status s = "🟢 MODERATE") ∧
    (s ≤ 1/5 → flood_get_risk_status s = "⚪ MINIMAL" ∧
      fire_get_risk_status s = "⚪ LOW") ∧
    flood_get_risk_status (4/5) = "🟠 HIGH" ∧
    flood_get_risk_status (3/5) = "🟡 MODERATE" ∧
    flood_get_risk_status (2/5) = "🟢 LOW" ∧
    flood_get_risk_status (1/5) = "⚪ MINIMAL" ∧
    fire_get_risk_status (4/5) = "🟠 VERY HIGH" := by
  have e8 : (0.8 : ℚ) = 4/5 := by norm_num
  have e6 : (0.6 : ℚ) = 3/5 := by norm_num
  have e4 : (0.4 : ℚ) = 2/5 := by norm_num
  have e2 : (0.2 : ℚ) = 1/5 := by norm_num
  refine ⟨fun h => ?_, fun h h2 => ?_, fun h h2 => ?_, fun h h2 => ?_, fun h => ?_,
    ?_, ?_, ?_, ?_, ?_⟩ <;>
    simp only [flood_get_risk_status, fire_get_risk_status, e8, e6, e4, e2, gt_iff_lt]
  · rw [if_pos h, if_pos h]; exact ⟨rfl, rfl⟩
  · rw [if_neg (not_lt.mpr h2), if_pos h, if_neg (not_lt.mpr h2), if_pos h]
    exact ⟨rfl, rfl⟩
  · have h8 : ¬(4/5 : ℚ) < s := by
      intro hc; have : (3/5 : ℚ) < 4/5 := by norm_num
      exact absurd (lt_of_lt_of_le hc h2) (by norm_num)
    rw [if_neg h8, if_neg (not_lt.mpr h2), if_pos h, if_neg h8,
      if_neg (not_lt.mpr h2), if_pos h]
    exact ⟨rfl, rfl⟩
  · have h8 : ¬(4/5 : ℚ) < s := by
      intro hc; exact absurd (lt_of_lt_of_le hc h2) (by norm_num)
    have h6 : ¬(3/5 : ℚ) < s := by
      intro hc; exact absurd (lt_of_lt_of_le hc h2) (by norm_num)
    rw [if_neg h8, if_neg h6, if_neg (not_lt.mpr h2), if_pos h, if_neg h8,
      if_neg h6, if_neg (not_lt.mpr h2), if_pos h]
    exact ⟨rfl, rfl⟩
  · have h8 : ¬(4/5 : ℚ) < s := by
      intro hc; exact absurd (lt_of_lt_of_le hc h) (by norm_num)
    have h6 : ¬(3/5 : ℚ) < s := by
      intro hc; exact absurd (lt_of_lt_of_le hc h) (by norm_num)
    have h4 : ¬(2/5 : ℚ) < s := by
      intro hc; exact absurd (lt_of_lt_of_le hc h) (by norm_num)
    have h2 : ¬(1/5 : ℚ) < s := not_lt.mpr h
    rw [if_neg h8, if_neg h6, if_neg h4, if_neg h2, if_neg h8, if_neg h6,
      if_neg h4, if_neg h2]
    exact ⟨rfl, rfl⟩
  · norm_num
  · norm_num
  · norm_num
  · norm_num
  · norm_num

/-- C5 (witness): a score of 0.9 lies strictly above the critical
threshold and yields the critical-tier statuses. -/
theorem riskStatus_bands_witness :
    flood_get_risk_status (9/10) = "🔴 CRITICAL" ∧
    fire_get_risk_status (9/10) = "🔴 EXTREME" :=
  (riskStatus_bands (9/10)).1 (by norm_num)

/-- The successful side of the sweep is the list of clients whose send
succeeds, in registry order. -/
theorem sweep_fst (sendOk : Nat → Bool) (cs : List Nat) :
    (sweep sendOk cs).1 = cs.filter sendOk := by
  induction cs with
  | nil => rfl
  | cons c cs ih =>
    cases h : sendOk c <;> simp [sweep, h, ih, List.filter_cons]

/-- The `disconnected` side of the sweep is the list of clients whose
send fails. -/
theorem sweep_snd (sendOk : Nat → Bool) (cs : List Nat) :
    (sweep sendOk cs).2 = cs.filter (fun c => !(sendOk c)) := by
  induction cs with
  | nil => rfl
  | cons c cs ih =>
    cases h : sendOk c <;> simp [sweep, h, ih, List.filter_cons]

/-- C6: with a registry in which exactly subscriber k's send fails, one
publish sweep delivers the envelope to every other subscriber; after the
sweep, k is absent from the registry and every other subscriber remains
registered. -/
theorem broadcast_isolates_failing_subscriber (sendOk : Nat → Bool) (clients : List Nat)
    (k : Nat) (msg : Envelope) (hk : k ∈ clients)
    (hfail : ∀ c ∈ clients, sendOk c = false ↔ c = k) :
    (broadcast_update sendOk clients msg).1 =
      (clients.filter (fun c => c ≠ k)).map (fun c => (c, msg)) ∧
    (broadcast_update sendOk clients msg).2 = clients.filter (fun c => c ≠ k) ∧
    k ∉ (broadcast_update sendOk clients msg).2 ∧
    ∀ c ∈ clients, c ≠ k →
      (c, msg) ∈ (broadcast_update sendOk clients msg).1 ∧
      c ∈ (broadcast_update sendOk clients msg).2 := by
  have hne : clients.isEmpty = false := by
    cases clients with
    | nil => cases hk
    | cons a l => rfl
  have hok : ∀ c ∈ clients, sendOk c = decide (c ≠ k) := by
    intro c hc
    by_cases hck : c = k
    · subst hck; simp [(hfail c hc).mpr rfl]
    · have hb : sendOk c = true := by
        cases hb2 : sendOk c with
        | false => exact absurd ((hfail c hc).mp hb2) hck
        | true => rfl
      simp [hb, hck]
  have hdeliv : (sweep sendOk clients).1 = clients.filter (fun c => c ≠ k) := by
    rw [sweep_fst]
    exact List.filter_congr hok
  have hdisc : ∀ c ∈ clients, ((sweep sendOk clients).2.contains c) = decide (c = k) := by
    intro c hc
    rw [sweep_snd]
    by_cases hck : c = k
    · subst hck
      have hmem : c ∈ clients.filter (fun x => !(sendOk x)) := by
        rw [List.mem_filter]
        exact ⟨hc, by simp [(hfail c hc).mpr rfl]⟩
      simp [List.contains, List.elem_eq_mem, hmem]
    · have hmem : c ∉ clients.filter (fun x => !(sendOk x)) := by
        rw [List.mem_filter]
        rintro ⟨-, hb⟩
        exact hck ((hfail c hc).mp (by simpa using hb))
      simp [List.contains, List.elem_eq_mem, hmem, hck]
  have hreg : (broadcast_update sendOk clients msg).2 = clients.filter (fun c => c ≠ k) := by
    unfold broadcast_update
    rw [hne]
    simp only [Bool.false_eq_true, if_false]
    exact List.filter_congr (by intro c hc; rw [hdisc c hc]; by_cases hck : c = k <;> simp [hck])
  have hdel : (broadcast_update sendOk clients msg).1 =
      (clients.filter (fun c => c ≠ k)).map (fun c => (c, msg)) := by
    unfold broadcast_update
    rw [hne]
    simp only [Bool.false_eq_true, if_false]
    rw [hdeliv]
  refine ⟨hdel, hreg, ?_, ?_⟩
  · rw [hreg]
    simp [List.mem_filter]
  · intro c hc hck
    constructor
    · rw [hdel]
      exact List.mem_map_of_mem _ (List.mem_filter.mpr ⟨hc, by simp [hck]⟩)
    · rw [hreg]
      exact List.mem_filter.mpr ⟨hc, by simp [hck]⟩

/-- C6 (witness): in the registry \x7b1, 2, 3\x7d where exactly subscriber 2's
send fails, the sweep delivers to 1 and 3 and drops 2 from the registry. -/
theorem broadcast_isolates_failing_subscriber_witness :
    (broadcast_update (fun c => !(c == 2)) [1, 2, 3] []).1 =
      (([1, 2, 3] : List Nat).filter (fun c => c ≠ 2)).map (fun c => (c, ([] : Envelope))) ∧
    (broadcast_update (fun c => !(c == 2)) [1, 2, 3] []).2 =
      ([1, 2, 3] : List Nat).filter (fun c => c ≠ 2) ∧
    (2 : Nat) ∉ (broadcast_update (fun c => !(c == 2)) [1, 2, 3] ([] : Envelope)).2 ∧
    ∀ c ∈ ([1, 2, 3] : List Nat), c ≠ 2 →
      (c, ([] : Envelope)) ∈ (broadcast_update (fun c => !(c == 2)) [1, 2, 3] []).1 ∧
      c ∈ (broadcast_update (fun c => !(c == 2)) [1, 2, 3] ([] : Envelope)).2 :=
  broadcast_isolates_failing_subscriber (fun c => !(c == 2)) [1, 2, 3] 2 []
    (by decide) (by decide)

/-- C7 (counterexample): the live-subscriber envelopes carry the keys
`"type"`, `"data"`, `"timestamp"` — not `"kind"` and `"payload"` — and
the data-update kind tag is `"sensor_update"`, not `"data_update"`. -/
theorem envelope_keys_not_as_specified :
    (broadcast_alert_message (mkAlert "a1" "t1" { }) "t1").map Prod.fst =
      ["type", "data", "timestamp"] ∧
    "kind" ∉ (broadcast_alert_message (mkAlert "a1" "t1" { }) "t1").map Prod.fst ∧
    "payload" ∉ (broadcast_alert_message (mkAlert "a1" "t1" { }) "t1").map Prod.fst ∧
    (sensor_update_message [] "t1").map Prod.fst = ["type", "data", "timestamp"] ∧
    (sensor_update_message [] "t1").lookup "type" = some (JVal.str "sensor_update") := by
  refine ⟨rfl, ?_, ?_, rfl, rfl⟩ <;> decide

/-- C7 (amended): every message sent to a live subscriber by the alert
broadcast or the data-update broadcast is an envelope whose keys are
exactly `"type"`, `"data"`, `"timestamp"`, where `"type"` is `"alert"`
or `"sensor_update"`, `"data"` holds the payload and `"timestamp"` the
timestamp string; every delivery of `broadcast_alert` carries exactly
this envelope. -/
theorem envelope_shape (a : Alert) (data : List (String × ℚ)) (ts : String)
    (sendOk : Nat → Bool) (clients : List Nat) :
    (broadcast_alert_message a ts).map Prod.fst = ["type", "data", "timestamp"] ∧
    (broadcast_alert_message a ts).lookup "type" = some (JVal.str "alert") ∧
    (broadcast_alert_message a ts).lookup "data" = some (JVal.alertV a) ∧
    (broadcast_alert_message a ts).lookup "timestamp" = some (JVal.str ts) ∧
    (sensor_update_message data ts).map Prod.fst = ["type", "data", "timestamp"] ∧
    (sensor_update_message data ts).lookup "type" = some (JVal.str "sensor_update") ∧
    (sensor_update_message data ts).lookup "data" = some (JVal.dataV data) ∧
    (sensor_update_message data ts).lookup "timestamp" = some (JVal.str ts) ∧
    ∀ p ∈ (broadcast_alert sendOk clients a ts).1, p.2 = broadcast_alert_message a ts := by
  refine ⟨rfl, rfl, rfl, rfl, rfl, rfl, rfl, rfl, ?_⟩
  intro p hp
  unfold broadcast_alert broadcast_update at hp
  by_cases he : clients.isEmpty = true
  · rw [if_pos he] at hp
    cases hp
  · rw [if_neg he] at hp
    simp only [List.mem_map] at hp
    obtain ⟨c, -, rfl⟩ := hp
    rfl

/-- `create_alert` never returns an error: every adapter swallows its
own failure, so the dispatch always completes. -/
theorem create_alert_isOk (env : ChannelEnv) (alerts : AlertMap) (newId now : String)
    (d : AlertData) : ∃ p, create_alert env alerts newId now d = Except.ok p := by
  unfold create_alert
  rw [send_alert_eq]
  by_cases h1 : (mkAlert newId now d).severity = "critical" ∨
      (mkAlert newId now d).severity = "high"
  · rw [if_pos h1]; exact ⟨_, rfl⟩
  · by_cases h2 : (mkAlert newId now d).severity = "moderate"
    · rw [if_neg h1, if_pos h2]; exact ⟨_, rfl⟩
    · rw [if_neg h1, if_neg h2]; exact ⟨_, rfl⟩

/-- C8: for every alert payload, the manual-alert endpoint creates the
alert through the alert engine, hands exactly that created alert to the
broadcast fan-out, and returns it in a `"success"` response rather than
failing; the rule evaluator plays no part in the computation. -/
theorem createManualAlert_succeeds (env : ChannelEnv) (sendOk : Nat → Bool)
    (alerts : AlertMap) (clients : List Nat) (newId now ts : String) (d : AlertData) :
    ∃ alerts2 a,
      create_alert env alerts newId now d = Except.ok (alerts2, a) ∧
      create_manual_alert env sendOk alerts clients newId now ts d =
        Except.ok ({ status := "success", alert := a, timestamp := ts }, alerts2,
          (broadcast_alert sendOk clients a ts).1,
          (broadcast_alert sendOk clients a ts).2) := by
  obtain ⟨⟨alerts2, a⟩, hok⟩ := create_alert_isOk env alerts newId now d
  refine ⟨alerts2, a, hok, ?_⟩
  unfold create_manual_alert
  rw [hok]

/-- General fall-through of the breakpoint scan: a concentration inside
none of the intervals yields the default 500. -/
theorem aqi_from_breakpoints_all_miss (pm : ℚ) :
    ∀ l : List (ℚ × ℚ × ℚ × ℚ), (∀ bp ∈ l, ¬(bp.1 ≤ pm ∧ pm ≤ bp.2.1)) →
      aqi_from_breakpoints pm l = 500
  | [], _ => rfl
  | (bpLo, bpHi, aqiLo, aqiHi) :: rest, h => by
    have hbp := h (bpLo, bpHi, aqiLo, aqiHi) (List.mem_cons_self _ rest)
    simp only [aqi_from_breakpoints]
    rw [if_neg hbp]
    exact aqi_from_breakpoints_all_miss pm rest
      (fun b hb => h b (List.mem_cons_of_mem _ hb))

/-- C10: the PM2.5 AQI helper returns 500.0 for every input that lies in
no breakpoint interval — in particular for every value strictly between
the adjacent breakpoints 12 and 12.1 and for every negative value — so
the function is not monotone. -/
theorem pm25Aqi_gap_defaults_to_500 :
    (∀ pm : ℚ, (∀ bp ∈ pm25_breakpoints, ¬(bp.1 ≤ pm ∧ pm ≤ bp.2.1)) →
      calculate_pm25_aqi pm = 500) ∧
    (∀ pm : ℚ, 12 < pm → pm < 121/10 → calculate_pm25_aqi pm = 500) ∧
    (∀ pm : ℚ, pm < 0 → calculate_pm25_aqi pm = 500) ∧
    ¬ Monotone calculate_pm25_aqi := by
  have hgap : ∀ pm : ℚ, 12 < pm → pm < 121/10 → calculate_pm25_aqi pm = 500 := by
    intro pm h1 h2
    apply aqi_from_breakpoints_all_miss
    intro bp hbp
    simp only [pm25_breakpoints, List.mem_cons, List.not_mem_nil, or_false] at hbp
    rcases hbp with rfl | rfl | rfl | rfl | rfl | rfl <;>
      · rintro ⟨hlo, hhi⟩
        norm_num at hlo hhi
        linarith
  have hneg : ∀ pm : ℚ, pm < 0 → calculate_pm25_aqi pm = 500 := by
    intro pm h1
    apply aqi_from_breakpoints_all_miss
    intro bp hbp
    simp only [pm25_breakpoints, List.mem_cons, List.not_mem_nil, or_false] at hbp
    rcases hbp with rfl | rfl | rfl | rfl | rfl | rfl <;>
      · rintro ⟨hlo, hhi⟩
        norm_num at hlo hhi
        linarith
  refine ⟨fun pm h => aqi_from_breakpoints_all_miss pm pm25_breakpoints h, hgap, hneg, ?_⟩
  intro hm
  have h1 : calculate_pm25_aqi (241/20) = 500 := hgap (241/20) (by norm_num) (by norm_num)
  have h2 : calculate_pm25_aqi (121/10) = 51 := by
    norm_num [calculate_pm25_aqi, pm25_breakpoints, aqi_from_breakpoints]
  have hle := hm (show (241/20 : ℚ) ≤ 121/10 by norm_num)
  rw [h1, h2] at hle
  norm_num at hle

/-- C10 (witness): concrete gap and negative inputs both map to 500. -/
theorem pm25Aqi_gap_defaults_to_500_witness :
    calculate_pm25_aqi (241/20) = 500 ∧ calculate_pm25_aqi (-3) = 500 :=
  ⟨pm25Aqi_gap_defaults_to_500.2.1 (241/20) (by norm_num) (by norm_num),
   pm25Aqi_gap_defaults_to_500.2.2.1 (-3) (by norm_num)⟩

end Guardian
